import Mathlib

set_option maxHeartbeats 1000000

/-!
A shallow embedding of the QHI-Probe hallucination-detection core
(`_internals.py`): the hash-seeded entity vectorizer, the three probes
(Probe-C / uncertainty, Probe-R / risk, Probe-V / violation), the composite
scorer with its gate thresholds, and the train / benchmark entry points.

Machine floats are idealized as rationals.  Numeric routines that live
outside the repository (SHA-256, numpy's seeded `randn`, the transcendental
functions, and the scikit-learn / scipy fitting and metric computations)
are abstracted as fields of an `Externals` record; every theorem quantifies
over them, and control flow that depends on them (for example scikit-learn
raising on single-class labels) is modelled explicitly where it is
documented library behaviour.
-/

/-- Projection dimension of pseudo hidden-state vectors
(`_HiddenStateExtractor.DIM = 256`). -/
def DIM : Nat := 256

/-- `np.clip(x, lo, hi)` on scalars. -/
def clipQ (x lo hi : ℚ) : ℚ := min (max x lo) hi

/-- `np.dot` on two (equally long) dense vectors. -/
def dot (w x : List ℚ) : ℚ := (List.zipWith (fun a b => a * b) w x).sum

/-- External numeric routines the repository calls but does not define:
cryptographic hashing, the seeded pseudo-random generator, floating
transcendentals, and the scikit-learn / scipy fit and metric computations.
Their numeric outputs are black boxes to the repository's control flow, so
they are abstracted as functions and all theorems quantify over them. -/
structure Externals where
  /-- `hashlib.sha256(entity.encode()).digest()` as a byte list. -/
  sha256 : String → List Nat
  /-- `np.random.RandomState(seed).randn(dim)`. -/
  randn : Nat → Nat → List ℚ
  /-- floating square root (`np.linalg.norm` is `sqrtQ` of the sum of squares). -/
  sqrtQ : ℚ → ℚ
  /-- floating `np.exp`. -/
  expQ : ℚ → ℚ
  /-- floating `np.tanh`. -/
  tanhQ : ℚ → ℚ
  /-- fitted `(coef_[0], intercept_[0])` of the L2 `LogisticRegression` in
  `_ProbeC.train`, on the success path. -/
  lrFitC : List (List ℚ) → List ℤ → List ℚ × ℚ
  /-- `clf.score(X, y)` (training accuracy) in `_ProbeC.train`. -/
  lrScoreC : List (List ℚ) → List ℤ → ℚ
  /-- fitted `(coef_[0], intercept_[0])` of the L1 `LogisticRegression` in
  `_ProbeV.train`, on the success path. -/
  lrFitV : List (List ℚ) → List ℤ → List ℚ × ℚ
  /-- the fitted `MLPRegressor` of `_ProbeR.train`, as its prediction map. -/
  mlpFit : List (List ℚ) → List ℚ → (List ℚ → ℚ)
  /-- `MLPRegressor.score(X, y)` (r2) in `_ProbeR.train`. -/
  mlpR2 : List (List ℚ) → List ℚ → ℚ
  /-- `roc_auc_score(y, probs)` on the defined (two-class) case. -/
  aucOracle : List ℤ → List ℚ → ℚ
  /-- `average_precision_score(y, probs)` on the defined case. -/
  apOracle : List ℤ → List ℚ → ℚ
  /-- `f1_score(y_true, y_pred, zero_division=0)` (total: never raises). -/
  f1Oracle : List ℤ → List ℤ → ℚ
  /-- `scipy.stats.pearsonr` on the defined (length at least 2) case. -/
  pearsonOracle : List ℚ → List ℚ → ℚ
  /-- `np.percentile(xs, p)` on a nonempty list. -/
  percentileOracle : List ℚ → ℚ → ℚ
  /-- the `self.rng.randn(DIM) * 0.01` draw used by `extract` only when a
  sample's entity list is empty (stateful in the source; a single abstract
  draw suffices for the claims, which concern nonempty entity lists). -/
  emptyNoise : List ℚ

-- ─── Data model ──────────────────────────────────────────────────────────────

/-- `ClinicalSample` (after `__post_init__`: the dataclass guarantees a
nonempty entity list, falling back to auto-extraction). -/
structure ClinicalSample where
  text : String
  entities : List String
  true_label : ℤ := 0
  true_severity : ℚ := 0
  specialty : String := "general"
  model_name : String := "unknown"

/-- `QHIScore`: the result record produced by `QHIProbeSystem.score`.
`inference_ms` is wall-clock observational data in the source; the embedding
fixes it at 0 (it never feeds back into any computation). -/
structure QHIScore where
  qhi : ℚ
  uncertainty : ℚ
  risk_score : ℚ
  violation_prob : ℚ
  gate : String
  inference_ms : ℚ

/-- `SPECIALTY_RISK_MAP`: the process-wide specialty → baseline-risk table. -/
def SPECIALTY_RISK_MAP : List (String × ℚ) :=
  [("emergency", 5), ("anesthesiology", 24/5), ("toxicology", 47/10),
   ("critical_care", 49/10), ("cardiology", 23/5), ("neurosurgery", 24/5),
   ("nephrology", 21/5), ("pulmonology", 4), ("oncology", 43/10),
   ("hematology", 19/5), ("infectious_disease", 39/10), ("surgery", 41/10),
   ("endocrinology", 37/10), ("gastroenterology", 18/5),
   ("internal_medicine", 16/5), ("neurology", 7/2), ("rheumatology", 3),
   ("pediatrics", 19/5), ("obstetrics", 39/10), ("urology", 14/5),
   ("dermatology", 23/10), ("psychiatry", 5/2), ("ophthalmology", 11/5),
   ("preventive", 9/5), ("rehabilitation", 3/2), ("general", 2)]

-- ─── Entity vectorizer (`_HiddenStateExtractor`) ─────────────────────────────

/-- `int.from_bytes(bytes, 'big')`. -/
def bytesToNatBE (bs : List Nat) : Nat := bs.foldl (fun a b => a * 256 + b) 0

/-- The generator seed used in `_entity_to_vector`:
`int.from_bytes(sha256(entity)[:4], 'big')`. -/
def seedVal (ext : Externals) (entity : String) : Nat :=
  bytesToNatBE ((ext.sha256 entity).take 4)

/-- `_entity_to_vector`'s computation (cache aside): a `randn(DIM)` draw
seeded by the digest prefix, divided by its L2 norm plus `1e-8`. -/
def entityToVector (ext : Externals) (entity : String) : List ℚ :=
  let vec := ext.randn (seedVal ext entity) DIM
  let n := ext.sqrtQ ((vec.map (fun a => a * a)).sum) + 1/100000000
  vec.map (fun a => a / n)

/-- The per-instance `_entity_cache`, as an association list. -/
def EntityCache : Type := List (String × List ℚ)

/-- Lookup in the entity cache. -/
def cacheFind (c : EntityCache) (e : String) : Option (List ℚ) :=
  match c with
  | [] => none
  | (k, v) :: rest => if k = e then some v else cacheFind rest e

/-- `_entity_to_vector` with its cache, state passed explicitly: return the
cached vector on a hit, otherwise compute and insert. -/
def entityToVectorCached (ext : Externals) (c : EntityCache) (e : String) :
    List ℚ × EntityCache :=
  match cacheFind c e with
  | some v => (v, c)
  | none => let v := entityToVector ext e; (v, (e, v) :: c)

/-- Cache coherence: every cached entry is the vector the cacheless
computation produces.  The empty cache of a fresh extractor is coherent, and
`entityToVectorCached` preserves coherence. -/
def CacheCoherent (ext : Externals) (c : EntityCache) : Prop :=
  ∀ e v, cacheFind c e = some v → v = entityToVector ext e

/-- Elementwise mean of the per-entity vectors (`entity_vecs.mean(axis=0)`
for an n×DIM matrix). -/
def meanVec (vs : List (List ℚ)) : List ℚ :=
  (List.range DIM).map (fun i => (vs.map (fun v => v.getD i 0)).sum / vs.length)

/-- `_HiddenStateExtractor.extract`: mean-pool the (lowercased) entity
vectors, then overwrite index 0 with `tanh(len(text)/500)` and index 1 with
`tanh(n_entities/10)`.  The empty-entities branch returns the rng draw
(unreachable for constructed samples). -/
def extract (ext : Externals) (s : ClinicalSample) : List ℚ :=
  if s.entities = [] then ext.emptyNoise
  else
    let base := meanVec (s.entities.map (fun e => entityToVector ext e.toLower))
    let textSignal := ext.tanhQ ((s.text.length : ℚ) / 500)
    let countSignal := ext.tanhQ ((s.entities.length : ℚ) / 10)
    (base.set 0 textSignal).set 1 countSignal

/-- `extract_batch`. -/
def extractBatch (ext : Externals) (samples : List ClinicalSample) :
    List (List ℚ) :=
  samples.map (extract ext)

-- ─── Shared probe machinery ──────────────────────────────────────────────────

/-- The clipped sigmoid all logistic probes use:
`1 / (1 + exp(-clip(logit, -500, 500)))`. -/
def sigmoid (ext : Externals) (logit : ℚ) : ℚ :=
  1 / (1 + ext.expQ (-(clipQ logit (-500) 500)))

/-- Models `sklearn.linear_model.LogisticRegression.fit`, which raises
`ValueError` when the label vector holds fewer than two distinct classes,
and otherwise yields fitted coefficients (abstracted as `fit`). -/
def sklearnLogRegFit (fit : List (List ℚ) → List ℤ → List ℚ × ℚ)
    (X : List (List ℚ)) (y : List ℤ) : Except String (List ℚ × ℚ) :=
  if y.dedup.length < 2 then
    Except.error "This solver needs samples of at least 2 classes in the data"
  else Except.ok (fit X y)

/-- Models `sklearn.metrics.roc_auc_score`, which raises `ValueError` when
`y_true` holds fewer than two distinct classes. -/
def rocAucScore (auc : List ℤ → List ℚ → ℚ) (y : List ℤ) (probs : List ℚ) :
    Except String ℚ :=
  if y.dedup.length < 2 then
    Except.error "Only one class present in y_true"
  else Except.ok (auc y probs)

-- ─── Probe-C: uncertainty (`_ProbeC`) ────────────────────────────────────────

/-- `_ProbeC` state: L2 logistic-regression parameters plus trained flag. -/
structure ProbeC where
  C : ℚ := 1
  weights : List ℚ := []
  bias : ℚ := 0
  trained : Bool := false

/-- Metrics returned by `_ProbeC.train`. -/
structure ProbeCMetrics where
  auc_roc : ℚ
  accuracy : ℚ

/-- `_ProbeC.train`: fit (which raises on single-class labels — only the
AUC computation below sits in a try/except), store the coefficients, and
report AUC (falling back to 0.5 when `roc_auc_score` raises) and accuracy.
`predict_proba(X)[:, 1]` of a logistic model is the sigmoid of its decision
function. -/
def ProbeC.train (ext : Externals) (p : ProbeC) (X : List (List ℚ))
    (y : List ℤ) : Except String (ProbeC × ProbeCMetrics) :=
  match sklearnLogRegFit ext.lrFitC X y with
  | Except.error e => Except.error e
  | Except.ok (coef, intercept) =>
    let p2 := { p with weights := coef, bias := intercept, trained := true }
    let yProb := X.map (fun x => sigmoid ext (dot coef x + intercept))
    let auc := match rocAucScore ext.aucOracle y yProb with
      | Except.ok a => a
      | Except.error _ => 1/2
    Except.ok (p2, { auc_roc := auc, accuracy := ext.lrScoreC X y })

/-- `_ProbeC.predict`: 0.5 when untrained, else the clipped sigmoid of
`weights · x + bias`. -/
def ProbeC.predict (ext : Externals) (p : ProbeC) (x : List ℚ) : ℚ :=
  if p.trained = false then 1/2
  else sigmoid ext (dot p.weights x + p.bias)

-- ─── Probe-R: risk score (`_ProbeR`) ─────────────────────────────────────────

/-- `_ProbeR` state: the fitted MLP (as its prediction map) plus flag. -/
structure ProbeR where
  model : Option (List ℚ → ℚ) := none
  trained : Bool := false

/-- Metrics returned by `_ProbeR.train`. -/
structure ProbeRMetrics where
  mae : ℚ
  r2 : ℚ

/-- `|x|` on rationals (`np.abs`). -/
def absQ (x : ℚ) : ℚ := |x|

/-- `_ProbeR.train`: fit the MLP regressor (total — `MLPRegressor.fit` does
not raise on these inputs) and report mean absolute error and r2. -/
def ProbeR.train (ext : Externals) (_p : ProbeR) (X : List (List ℚ))
    (riskLabels : List ℚ) : ProbeR × ProbeRMetrics :=
  let m := ext.mlpFit X riskLabels
  let preds := X.map m
  let mae := ((List.zipWith (fun a b => absQ (a - b)) preds riskLabels).sum) /
    (riskLabels.length : ℚ)
  ({ model := some m, trained := true },
   { mae := mae, r2 := ext.mlpR2 X riskLabels })

/-- `_ProbeR.predict`: when trained (and a model exists) the MLP output
clamped to [1, 5]; otherwise the specialty lookup with default 2.5,
matched on the lowercased specialty. -/
def ProbeR.predict (p : ProbeR) (x : List ℚ) (specialty : String) : ℚ :=
  match p.trained, p.model with
  | true, some m => clipQ (m x) 1 5
  | _, _ =>
    match SPECIALTY_RISK_MAP.lookup specialty.toLower with
    | some r => r
    | none => 5/2

-- ─── Probe-V: violation (`_ProbeV`) ──────────────────────────────────────────

/-- `_ProbeV` state: L1 logistic parameters, trained flag, and the cached
nonzero-weight index set. -/
structure ProbeV where
  C : ℚ := 1/2
  weights : List ℚ := []
  bias : ℚ := 0
  trained : Bool := false
  nonzero_mask : Option (List Nat) := none

/-- Metrics returned by `_ProbeV.train`. -/
structure ProbeVMetrics where
  auc_roc : ℚ
  sparsity : ℚ

/-- `np.nonzero(weights)[0]`: the (increasing) indices of nonzero entries. -/
def nonzeroIndices (w : List ℚ) : List Nat :=
  (List.range w.length).filter (fun i => w.getD i 0 ≠ 0)

/-- The sparse dot product of `_ProbeV.predict`:
`np.dot(weights[mask], x[mask])`. -/
def dotMasked (w x : List ℚ) (mask : List Nat) : ℚ :=
  (mask.map (fun i => w.getD i 0 * x.getD i 0)).sum

/-- `_ProbeV.train`: L1 fit (raising on single-class labels), cache the
nonzero mask, report AUC (0.5 fallback) and sparsity. -/
def ProbeV.train (ext : Externals) (p : ProbeV) (X : List (List ℚ))
    (y : List ℤ) : Except String (ProbeV × ProbeVMetrics) :=
  match sklearnLogRegFit ext.lrFitV X y with
  | Except.error e => Except.error e
  | Except.ok (coef, intercept) =>
    let mask := nonzeroIndices coef
    let p2 := { p with weights := coef, bias := intercept, trained := true,
                       nonzero_mask := some mask }
    let yProb := X.map (fun x => sigmoid ext (dot coef x + intercept))
    let auc := match rocAucScore ext.aucOracle y yProb with
      | Except.ok a => a
      | Except.error _ => 1/2
    Except.ok (p2, { auc_roc := auc,
                     sparsity := 1 - (mask.length : ℚ) / (coef.length : ℚ) })

/-- `_ProbeV.predict`: 0.5 when untrained; otherwise the clipped sigmoid of
the logit, computed over only the nonzero-weight indices when that mask is
cached and strictly smaller than the input vector, else densely. -/
def ProbeV.predict (ext : Externals) (p : ProbeV) (x : List ℚ) : ℚ :=
  if p.trained = false then 1/2
  else
    match p.nonzero_mask with
    | some mask =>
      if mask.length < x.length then
        sigmoid ext (dotMasked p.weights x mask + p.bias)
      else sigmoid ext (dot p.weights x + p.bias)
    | none => sigmoid ext (dot p.weights x + p.bias)

-- ─── QHI probe system ────────────────────────────────────────────────────────

/-- `QHIProbeSystem` state: the three probes plus the trained flag. -/
structure QHIProbeSystem where
  probe_c : ProbeC := {}
  probe_r : ProbeR := {}
  probe_v : ProbeV := {}
  trained : Bool := false

/-- The inline gate assignment of `QHIProbeSystem.score`:
`qhi < 5 → AUTO_USE`, `qhi < 20 → REVIEW`, else `BLOCK`. -/
def gateOf (qhi : ℚ) : String :=
  if qhi < 5 then "AUTO_USE" else if qhi < 20 then "REVIEW" else "BLOCK"

/-- `QHIProbeSystem.score`: extract features once, run the three probes,
combine as `clip(u * r * v * 5, 0, 25)`, and gate. -/
def QHIProbeSystem.score (ext : Externals) (sys : QHIProbeSystem)
    (s : ClinicalSample) : QHIScore :=
  let x := extract ext s
  let uncertainty := sys.probe_c.predict ext x
  let risk := sys.probe_r.predict x s.specialty
  let violation := sys.probe_v.predict ext x
  let qhi := clipQ (uncertainty * risk * violation * 5) 0 25
  { qhi := qhi, uncertainty := uncertainty, risk_score := risk,
    violation_prob := violation, gate := gateOf qhi, inference_ms := 0 }

/-- `QHIProbeSystem.score_batch`: score each sample in order. -/
def QHIProbeSystem.scoreBatch (ext : Externals) (sys : QHIProbeSystem)
    (samples : List ClinicalSample) : List QHIScore :=
  samples.map (sys.score ext)

/-- Aggregate training metrics returned by `QHIProbeSystem.train`. -/
structure TrainMetrics where
  probe_c : ProbeCMetrics
  probe_r : ProbeRMetrics
  probe_v : ProbeVMetrics
  n_train : Nat
  n_hallucinated : ℤ
  n_clean : ℤ

/-- The message of the `ValueError` raised by `QHIProbeSystem.train` on
insufficient data: it names both the minimum (10) and the actual count. -/
def needSamplesMsg (n : Nat) : String :=
  "Need at least 10 samples, got " ++ toString n

/-- The binary hallucination labels `train` derives:
`np.array([s.true_label for s in samples])`. -/
def yHallucinatedOf (samples : List ClinicalSample) : List ℤ :=
  samples.map (fun s => s.true_label)

/-- The risk labels `train` derives: `np.clip(y_severity / 5.0, 1.0, 5.0)`. -/
def yRiskOf (samples : List ClinicalSample) : List ℚ :=
  (samples.map (fun s => s.true_severity)).map (fun v => clipQ (v / 5) 1 5)

/-- The violation labels `train` derives:
`(y_severity > 10.0).astype(int)`. -/
def yViolationOf (samples : List ClinicalSample) : List ℤ :=
  (samples.map (fun s => s.true_severity)).map
    (fun v => if v > 10 then (1 : ℤ) else 0)

/-- `QHIProbeSystem.train`: raise on fewer than 10 samples (before any
state change), else derive the three label vectors and train the probes in
order, propagating any fit error. -/
def QHIProbeSystem.train (ext : Externals) (sys : QHIProbeSystem)
    (samples : List ClinicalSample) :
    Except String (QHIProbeSystem × TrainMetrics) :=
  if samples.length < 10 then Except.error (needSamplesMsg samples.length)
  else
    let X := extractBatch ext samples
    let yHallucinated := yHallucinatedOf samples
    let yRisk := yRiskOf samples
    let yViolation := yViolationOf samples
    match sys.probe_c.train ext X yHallucinated with
    | Except.error e => Except.error e
    | Except.ok (pc, mc) =>
      let (pr, mr) := sys.probe_r.train ext X yRisk
      match sys.probe_v.train ext X yViolation with
      | Except.error e => Except.error e
      | Except.ok (pv, mv) =>
        Except.ok
          ({ sys with probe_c := pc, probe_r := pr, probe_v := pv,
                      trained := true },
           { probe_c := mc, probe_r := mr, probe_v := mv,
             n_train := samples.length,
             n_hallucinated := yHallucinated.sum,
             n_clean := (yHallucinated.map (fun l => 1 - l)).sum })

-- ─── Benchmark ───────────────────────────────────────────────────────────────

/-- The metrics mapping returned by `QHIProbeSystem.benchmark`; the gate
distribution is its three percentages. -/
structure BenchmarkMetrics where
  auc_roc : ℚ
  avg_precision : ℚ
  f1 : ℚ
  pearson_r : ℚ
  avg_latency_ms : ℚ
  p95_latency_ms : ℚ
  gate_auto_use : ℚ
  gate_review : ℚ
  gate_block : ℚ
  n_test : Nat

/-- Python division: raises `ZeroDivisionError` on a zero denominator. -/
def pyDiv (a b : ℚ) : Except String ℚ :=
  if b = 0 then Except.error "ZeroDivisionError: division by zero"
  else Except.ok (a / b)

/-- Models `average_precision_score`, raising when `y_true` is degenerate
(the source wraps it in a try/except with sentinel 0.0). -/
def avgPrecisionScore (ap : List ℤ → List ℚ → ℚ) (y : List ℤ)
    (probs : List ℚ) : Except String ℚ :=
  if y.dedup.length < 2 then Except.error "No positive class found in y_true"
  else Except.ok (ap y probs)

/-- Models `scipy.stats.pearsonr`, raising when the inputs have length
below 2 (the source wraps it in a bare except with sentinel 0.0). -/
def pearsonR (pr : List ℚ → List ℚ → ℚ) (a b : List ℚ) : Except String ℚ :=
  if a.length < 2 then Except.error "x and y must have length at least 2"
  else Except.ok (pr a b)

/-- `QHIProbeSystem.benchmark`: score every sample; AUC, average precision
and Pearson r degrade to sentinels when their computation raises; F1 uses
the `qhi >= 5` threshold; the gate-distribution percentages divide by the
number of gates, which is Python integer-over-int division and raises
`ZeroDivisionError` on an empty test set. -/
def QHIProbeSystem.benchmark (ext : Externals) (sys : QHIProbeSystem)
    (testSamples : List ClinicalSample) : Except String BenchmarkMetrics :=
  let scores := sys.scoreBatch ext testSamples
  let yTrue := testSamples.map (fun s => s.true_label)
  let ySeverity := testSamples.map (fun s => s.true_severity)
  let qhiScores := scores.map (fun s => s.qhi)
  let latencies := scores.map (fun s => s.inference_ms)
  let yPred := qhiScores.map (fun q => if q ≥ 5 then (1 : ℤ) else 0)
  let aucRoc := match rocAucScore ext.aucOracle yTrue qhiScores with
    | Except.ok a => a
    | Except.error _ => 1/2
  let avgPrec := match avgPrecisionScore ext.apOracle yTrue qhiScores with
    | Except.ok a => a
    | Except.error _ => 0
  let f1 := ext.f1Oracle yTrue yPred
  let pearson := match pearsonR ext.pearsonOracle qhiScores ySeverity with
    | Except.ok r => r
    | Except.error _ => 0
  let gates := scores.map (fun s => s.gate)
  match pyDiv ((gates.count "AUTO_USE" : ℚ)) ((gates.length : ℚ)) with
  | Except.error e => Except.error e
  | Except.ok fracAuto =>
    match pyDiv ((gates.count "REVIEW" : ℚ)) ((gates.length : ℚ)) with
    | Except.error e => Except.error e
    | Except.ok fracReview =>
      match pyDiv ((gates.count "BLOCK" : ℚ)) ((gates.length : ℚ)) with
      | Except.error e => Except.error e
      | Except.ok fracBlock =>
        Except.ok
          { auc_roc := aucRoc, avg_precision := avgPrec, f1 := f1,
            pearson_r := pearson,
            avg_latency_ms := latencies.sum / (latencies.length : ℚ),
            p95_latency_ms := ext.percentileOracle latencies 95,
            gate_auto_use := fracAuto * 100,
            gate_review := fracReview * 100,
            gate_block := fracBlock * 100,
            n_test := testSamples.length }

-- ─── Concrete instantiations for evaluating the embedding ────────────────────

/-- A concrete instantiation of the external routines, used to evaluate the
embedding at specific inputs. -/
def extProbe : Externals where
  sha256 := fun _ => [0, 0, 0, 1]
  randn := fun _ d => List.replicate d 1
  sqrtQ := fun _ => 16
  expQ := fun _ => 1
  tanhQ := fun _ => 0
  lrFitC := fun _ _ => ([1], 0)
  lrScoreC := fun _ _ => 1
  lrFitV := fun _ _ => ([0, 1], 0)
  mlpFit := fun _ _ => fun _ => 3
  mlpR2 := fun _ _ => 1
  aucOracle := fun _ _ => 1
  apOracle := fun _ _ => 1
  f1Oracle := fun _ _ => 1
  pearsonOracle := fun _ _ => 0
  percentileOracle := fun _ _ => 0
  emptyNoise := []

/-- A well-formed ten-sample training list: both hallucination classes and
both violation classes are present, so every probe fit succeeds. -/
def trainSamples : List ClinicalSample :=
  [{ text := "a0", entities := ["aspirin"], true_label := 0, true_severity := 0 },
   { text := "a1", entities := ["antacids"], true_label := 1, true_severity := 24 },
   { text := "a2", entities := ["heparin"], true_label := 0, true_severity := 0 },
   { text := "a3", entities := ["insulin"], true_label := 1, true_severity := 18 },
   { text := "a4", entities := ["morphine"], true_label := 0, true_severity := 2 },
   { text := "a5", entities := ["naloxone"], true_label := 1, true_severity := 12 },
   { text := "a6", entities := ["atropine"], true_label := 0, true_severity := 0 },
   { text := "a7", entities := ["tpa"], true_label := 1, true_severity := 20 },
   { text := "a8", entities := ["nac"], true_label := 0, true_severity := 1 },
   { text := "a9", entities := ["metformin"], true_label := 1, true_severity := 15 }]

/-- A single concrete scoring sample. -/
def sampleA : ClinicalSample :=
  { text := "Give epinephrine for anaphylaxis", entities := ["epinephrine"],
    true_label := 0, true_severity := 0, specialty := "emergency" }

/-- A concrete trained Probe-V state whose weight vector has a zero entry,
with the nonzero mask cached exactly as `_ProbeV.train` caches it. -/
def probeVSparse : ProbeV :=
  { C := 1/2, weights := [0, 1], bias := 0, trained := true,
    nonzero_mask := some (nonzeroIndices [0, 1]) }

-- ─── Helper lemmas ───────────────────────────────────────────────────────────

theorem clipQ_le (x lo hi : ℚ) : clipQ x lo hi ≤ hi := min_le_right _ _

theorem le_clipQ (x lo hi : ℚ) (h : lo ≤ hi) : lo ≤ clipQ x lo hi :=
  le_min (le_max_right _ _) h

theorem gateOf_auto_use (q : ℚ) : gateOf q = "AUTO_USE" ↔ q < 5 := by
  unfold gateOf
  split_ifs with h5 h20 <;> simp_all

theorem gateOf_review (q : ℚ) : gateOf q = "REVIEW" ↔ 5 ≤ q ∧ q < 20 := by
  unfold gateOf
  split_ifs with h5 h20 <;> simp_all

theorem gateOf_block (q : ℚ) : gateOf q = "BLOCK" ↔ 20 ≤ q := by
  unfold gateOf
  split_ifs with h5 h20 <;> simp_all
  linarith

theorem meanVec_perm (vs ws : List (List ℚ)) (h : vs.Perm ws) :
    meanVec vs = meanVec ws := by
  unfold meanVec
  refine List.map_congr_left ?_
  intro i _
  rw [(h.map (fun v => v.getD i 0)).sum_eq, h.length_eq]

theorem entityToVectorCached_fst (ext : Externals) (c : EntityCache)
    (e : String) (h : CacheCoherent ext c) :
    (entityToVectorCached ext c e).1 = entityToVector ext e := by
  unfold entityToVectorCached
  cases hf : cacheFind c e with
  | none => rfl
  | some v => exact h e v hf

theorem entityToVectorCached_coherent (ext : Externals) (c : EntityCache)
    (e : String) (h : CacheCoherent ext c) :
    CacheCoherent ext (entityToVectorCached ext c e).2 := by
  unfold entityToVectorCached
  cases hf : cacheFind c e with
  | some v => exact h
  | none =>
    intro e2 v2 hv2
    simp only [cacheFind] at hv2
    by_cases he : e = e2
    · rw [if_pos he] at hv2
      cases hv2
      rw [← he]
    · rw [if_neg he] at hv2
      exact h e2 v2 hv2

theorem nodup_const_length_le_one {l : List ℤ} {a : ℤ} (hn : l.Nodup)
    (hc : ∀ x ∈ l, x = a) : l.length ≤ 1 := by
  match l with
  | [] => simp
  | [_] => simp
  | x :: y :: t =>
    exfalso
    have hx := hc x (by simp)
    have hy := hc y (by simp)
    rw [List.nodup_cons] at hn
    refine hn.1 ?_
    rw [hx, ← hy]
    simp

theorem dedup_length_lt_two_of_const {y : List ℤ} {a : ℤ}
    (hc : ∀ l ∈ y, l = a) : y.dedup.length < 2 := by
  have h1 : y.dedup.length ≤ 1 :=
    nodup_const_length_le_one y.nodup_dedup
      (fun x hx => hc x (y.dedup_subset hx))
  omega

theorem probeC_train_ok (ext : Externals) (p : ProbeC) (X : List (List ℚ))
    (y : List ℤ) (h : 2 ≤ y.dedup.length) :
    ∃ pm, ProbeC.train ext p X y = Except.ok pm ∧ pm.1.trained = true := by
  unfold ProbeC.train sklearnLogRegFit
  rw [if_neg (by omega)]
  exact ⟨_, rfl, rfl⟩

theorem probeV_train_ok (ext : Externals) (p : ProbeV) (X : List (List ℚ))
    (y : List ℤ) (h : 2 ≤ y.dedup.length) :
    ∃ pm, ProbeV.train ext p X y = Except.ok pm := by
  unfold ProbeV.train sklearnLogRegFit
  rw [if_neg (by omega)]
  exact ⟨_, rfl⟩

theorem sum_map_filter_support (p : Nat → Bool) (f : Nat → ℚ)
    (l : List Nat) (h : ∀ i ∈ l, p i = false → f i = 0) :
    ((l.filter p).map f).sum = (l.map f).sum := by
  induction l with
  | nil => rfl
  | cons a t ih =>
    have ht : ∀ i ∈ t, p i = false → f i = 0 :=
      fun i hi hpi => h i (List.mem_cons_of_mem a hi) hpi
    cases hp : p a with
    | true =>
      rw [List.filter_cons_of_pos hp, List.map_cons, List.map_cons,
        List.sum_cons, List.sum_cons, ih ht]
    | false =>
      rw [List.filter_cons_of_neg (by simp [hp]), List.map_cons,
        List.sum_cons, h a (List.mem_cons_self a t) hp, zero_add, ih ht]

theorem dot_eq_range (w : List ℚ) : ∀ x : List ℚ, w.length ≤ x.length →
    dot w x =
      ((List.range w.length).map (fun i => w.getD i 0 * x.getD i 0)).sum := by
  induction w with
  | nil => intro x _; rfl
  | cons a t ih =>
    intro x hx
    cases x with
    | nil => simp at hx
    | cons b u =>
      have hlen : t.length ≤ u.length := by simpa using hx
      simp only [dot, List.zipWith_cons_cons, List.sum_cons, List.length_cons,
        List.range_succ_eq_map, List.map_cons, List.getD_cons_zero,
        List.map_map, List.sum_cons]
      have heq : ((List.range t.length).map
          ((fun i => (a :: t).getD i 0 * (b :: u).getD i 0) ∘ Nat.succ)) =
          (List.range t.length).map (fun i => t.getD i 0 * u.getD i 0) := by
        refine List.map_congr_left ?_
        intro i _
        simp [Function.comp, List.getD_cons_succ]
      rw [heq]
      have hrec := ih u hlen
      simp only [dot] at hrec
      rw [hrec]

theorem nonzeroIndices_length_lt (w : List ℚ) (j : Nat) (hj : j < w.length)
    (hz : w.getD j 0 = 0) : (nonzeroIndices w).length < w.length := by
  unfold nonzeroIndices
  have hle : ((List.range w.length).filter
      (fun i => decide (w.getD i 0 ≠ 0))).length ≤ w.length := by
    calc ((List.range w.length).filter
          (fun i => decide (w.getD i 0 ≠ 0))).length
        ≤ (List.range w.length).length := List.length_filter_le _ _
      _ = w.length := List.length_range _
  rcases lt_or_eq_of_le hle with h | h
  · exact h
  · exfalso
    have heq : (List.range w.length).filter
        (fun i => decide (w.getD i 0 ≠ 0)) = List.range w.length :=
      (List.filter_sublist _).eq_of_length
        (by rw [h, List.length_range])
    have hall := List.filter_eq_self.mp heq j (List.mem_range.mpr hj)
    simp at hall
    exact hall (by simpa using hz)

theorem dotMasked_nonzero_eq_dot (w x : List ℚ) (h : w.length ≤ x.length) :
    dotMasked w x (nonzeroIndices w) = dot w x := by
  unfold dotMasked nonzeroIndices
  rw [sum_map_filter_support _ _ _ ?_, ← dot_eq_range w x h]
  intro i _ hpi
  have hz : w.getD i 0 = 0 := by simpa using hpi
  rw [hz, zero_mul]

-- ─── Claim theorems ──────────────────────────────────────────────────────────

/-- C1: every `QHIProbeSystem.score` result satisfies
`qhi = clip(uncertainty * risk_score * violation_prob * 5, 0, 25)` for the
three probe outputs recorded in the same result, and hence
`0 ≤ qhi ≤ 25`. -/
theorem qhi_clip_formula (ext : Externals) (sys : QHIProbeSystem)
    (s : ClinicalSample) :
    (sys.score ext s).qhi =
      clipQ ((sys.score ext s).uncertainty * (sys.score ext s).risk_score *
        (sys.score ext s).violation_prob * 5) 0 25 ∧
    0 ≤ (sys.score ext s).qhi ∧ (sys.score ext s).qhi ≤ 25 := by
  refine ⟨rfl, ?_, ?_⟩
  · exact le_clipQ _ _ _ (by norm_num)
  · exact clipQ_le _ _ _

/-- C2: the gate of every score result is the fixed half-open-threshold
function of its `qhi`: `AUTO_USE` iff `qhi < 5`, `REVIEW` iff
`5 ≤ qhi < 20`, `BLOCK` iff `qhi ≥ 20`; the boundary values 5 and 20 gate
to `REVIEW` and `BLOCK`, never the lower band. -/
theorem gate_thresholds (ext : Externals) (sys : QHIProbeSystem)
    (s : ClinicalSample) :
    ((sys.score ext s).gate = "AUTO_USE" ↔ (sys.score ext s).qhi < 5) ∧
    ((sys.score ext s).gate = "REVIEW" ↔
      5 ≤ (sys.score ext s).qhi ∧ (sys.score ext s).qhi < 20) ∧
    ((sys.score ext s).gate = "BLOCK" ↔ 20 ≤ (sys.score ext s).qhi) ∧
    gateOf 5 = "REVIEW" ∧ gateOf 20 = "BLOCK" := by
  have hg : (sys.score ext s).gate = gateOf (sys.score ext s).qhi := rfl
  rw [hg]
  exact ⟨gateOf_auto_use _, gateOf_review _, gateOf_block _,
    by norm_num [gateOf], by norm_num [gateOf]⟩

/-- C3: `score_batch` returns one result per sample in input order, and
each batch entry equals the individual `score` of the corresponding sample
(so their `qhi` values agree, in particular within 1e-6).  The nonempty
entity lists are the data-model invariant every constructed
`ClinicalSample` satisfies (the empty-entity branch of `extract` is the
only state-dependent path in the source). -/
theorem score_batch_refines_score (ext : Externals) (sys : QHIProbeSystem)
    (samples : List ClinicalSample) (i : Nat)
    (_hne : ∀ s ∈ samples, s.entities ≠ [])
    (hi : i < samples.length)
    (hb : i < (sys.scoreBatch ext samples).length) :
    (sys.scoreBatch ext samples).length = samples.length ∧
    (sys.scoreBatch ext samples).get ⟨i, hb⟩ =
      sys.score ext (samples.get ⟨i, hi⟩) ∧
    absQ (((sys.scoreBatch ext samples).get ⟨i, hb⟩).qhi -
      (sys.score ext (samples.get ⟨i, hi⟩)).qhi) ≤ 1/1000000 := by
  refine ⟨by simp [QHIProbeSystem.scoreBatch], ?_, ?_⟩
  · simp [QHIProbeSystem.scoreBatch]
  · simp [QHIProbeSystem.scoreBatch, absQ]

/-- Witness for C3: the first conjunct at a concrete one-sample batch, all
hypotheses discharged concretely. -/
theorem score_batch_refines_score_witness :
    (QHIProbeSystem.scoreBatch extProbe {} [sampleA]).length =
      [sampleA].length :=
  (score_batch_refines_score extProbe {} [sampleA] 0
    (by intro s hs; rw [List.mem_singleton] at hs; subst hs; decide)
    (by decide) (by simp [QHIProbeSystem.scoreBatch])).1

/-- C9: for a sample with nonempty entities, `extract` is the unweighted
mean of the per-entity (lowercased, unit-normalized) embedding vectors with
index 0 overwritten by `tanh(len(text)/500)` and index 1 by
`tanh(n_entities/10)`; the result has dimension 256 and is invariant under
any permutation of the entity list. -/
theorem extract_mean_overwrite_perm (ext : Externals) (s : ClinicalSample)
    (es2 : List String) (hne : s.entities ≠ [])
    (hperm : s.entities.Perm es2) :
    extract ext s =
      ((meanVec (s.entities.map (fun e => entityToVector ext e.toLower))).set
          0 (ext.tanhQ ((s.text.length : ℚ) / 500))).set 1
        (ext.tanhQ ((s.entities.length : ℚ) / 10)) ∧
    (extract ext s).length = 256 ∧
    extract ext { s with entities := es2 } = extract ext s := by
  have hne2 : es2 ≠ [] := by
    intro h
    subst h
    exact hne hperm.eq_nil
  refine ⟨?_, ?_, ?_⟩
  · unfold extract
    rw [if_neg hne]
  · unfold extract
    rw [if_neg hne]
    simp [meanVec, DIM]
  · unfold extract
    have hent : ({ s with entities := es2 } : ClinicalSample).entities = es2 :=
      rfl
    have htext : ({ s with entities := es2 } : ClinicalSample).text = s.text :=
      rfl
    rw [hent, htext, if_neg hne2, if_neg hne,
      meanVec_perm _ _ ((hperm.symm).map (fun e => entityToVector ext e.toLower)),
      ← hperm.length_eq]

/-- Witness for C9: the dimension conjunct at a concrete two-entity sample
and a transposed entity list, all hypotheses discharged concretely. -/
theorem extract_mean_overwrite_perm_witness :
    (extract extProbe
      { text := "chest pain", entities := ["aspirin", "heparin"] }).length =
      256 :=
  (extract_mean_overwrite_perm extProbe
    { text := "chest pain", entities := ["aspirin", "heparin"] }
    ["heparin", "aspirin"] (by decide) (by decide)).2.1

/-- C6: an entity's embedding is deterministic: the cached computation
returns exactly the cacheless vector on every coherent cache (so repeated
calls and fresh extractor instances — whose caches start empty and stay
coherent — always agree), and the vector depends only on the first four
bytes of the SHA-256 digest of the entity string. -/
theorem entity_embedding_deterministic (ext : Externals) (c : EntityCache)
    (e a b : String) (hc : CacheCoherent ext c)
    (hd : (ext.sha256 a).take 4 = (ext.sha256 b).take 4) :
    (entityToVectorCached ext c e).1 = entityToVector ext e ∧
    CacheCoherent ext (entityToVectorCached ext c e).2 ∧
    (entityToVectorCached ext [] e).1 = entityToVector ext e ∧
    entityToVector ext a = entityToVector ext b := by
  refine ⟨entityToVectorCached_fst ext c e hc,
    entityToVectorCached_coherent ext c e hc,
    entityToVectorCached_fst ext [] e ?_, ?_⟩
  · intro e2 v2 h2
    simp [cacheFind] at h2
  · simp only [entityToVector, seedVal, hd]

/-- Witness for C6: the digest-dependence conjunct at concrete entities
(under `extProbe` every digest agrees), all hypotheses discharged
concretely. -/
theorem entity_embedding_deterministic_witness :
    entityToVector extProbe "nac" = entityToVector extProbe "tpa" :=
  (entity_embedding_deterministic extProbe [] "aspirin" "nac" "tpa"
    (by intro e v h; simp [cacheFind] at h) (by decide)).2.2.2

/-- C4 counterexample: at a concrete feature matrix and the single-class
label vector `[0, 0, 0]`, `_ProbeC.train` propagates the solver's error
(scikit-learn's `LogisticRegression.fit` raises `ValueError` on
fewer-than-two-class labels) instead of returning metrics with
`auc_roc = 0.5`: the try/except in the source only wraps the later
`roc_auc_score` call. -/
theorem probeC_train_single_class_cex :
    ProbeC.train extProbe {} [[1], [1], [1]] [0, 0, 0] =
      Except.error
        "This solver needs samples of at least 2 classes in the data" := by
  rfl

/-- C4 (amended): for every label vector whose entries are all the same
class, `_ProbeC.train` raises — it propagates the solver's
at-least-2-classes error; the `auc_roc = 0.5` fallback applies only when
`roc_auc_score` fails after a successful fit. -/
theorem probeC_train_single_class_raises (ext : Externals) (p : ProbeC)
    (X : List (List ℚ)) (y : List ℤ) (a : ℤ) (hc : ∀ l ∈ y, l = a) :
    ProbeC.train ext p X y =
      Except.error
        "This solver needs samples of at least 2 classes in the data" := by
  unfold ProbeC.train sklearnLogRegFit
  rw [if_pos (dedup_length_lt_two_of_const hc)]

/-- Witness for C4's amended theorem at a concrete single-class input. -/
theorem probeC_train_single_class_raises_witness :
    ProbeC.train extProbe {} [[1], [2]] [1, 1] =
      Except.error
        "This solver needs samples of at least 2 classes in the data" :=
  probeC_train_single_class_raises extProbe {} [[1], [2]] [1, 1] 1
    (by intro l hl; rcases List.mem_cons.mp hl with h | h
        · exact h
        · simpa using h)

/-- C7: for every trained Probe-V whose cached mask is the nonzero-weight
index set (as `train` caches it) and whose weight vector has a zero entry,
the sparse `predict` equals the fully dense computation
`sigmoid(weights · x + bias)` exactly — in particular within 1e-5. -/
theorem probeV_sparse_dense_equiv (ext : Externals) (p : ProbeV) (x : List ℚ)
    (ht : p.trained = true)
    (hm : p.nonzero_mask = some (nonzeroIndices p.weights))
    (hlen : x.length = p.weights.length)
    (j : Nat) (hj : j < p.weights.length) (hz : p.weights.getD j 0 = 0) :
    p.predict ext x = sigmoid ext (dot p.weights x + p.bias) ∧
    absQ (p.predict ext x - sigmoid ext (dot p.weights x + p.bias)) ≤
      1/100000 := by
  have hmask : (nonzeroIndices p.weights).length < x.length := by
    rw [hlen]
    exact nonzeroIndices_length_lt p.weights j hj hz
  have hpred : p.predict ext x = sigmoid ext (dot p.weights x + p.bias) := by
    unfold ProbeV.predict
    rw [ht, hm, if_neg (by simp)]
    dsimp only
    rw [if_pos hmask,
      dotMasked_nonzero_eq_dot p.weights x (le_of_eq hlen.symm)]
  refine ⟨hpred, ?_⟩
  rw [hpred, sub_self]
  norm_num [absQ]

/-- Witness for C7 at a concrete trained sparse probe and input. -/
theorem probeV_sparse_dense_equiv_witness :
    ProbeV.predict extProbe probeVSparse [5, 7] =
      sigmoid extProbe (dot probeVSparse.weights [5, 7] + probeVSparse.bias) :=
  (probeV_sparse_dense_equiv extProbe probeVSparse [5, 7] rfl rfl (by decide)
    0 (by decide) (by decide)).1

/-- C8: every untrained probe's `predict` returns its documented fallback:
Probe-C and Probe-V return 0.5 for every input, and Probe-R returns the
specialty-table value for the lowercased specialty, defaulting to 2.5 when
the specialty is not in the table. -/
theorem untrained_predict_fallbacks (ext : Externals) (pc : ProbeC)
    (pr : ProbeR) (pv : ProbeV) (x : List ℚ) (specialty : String)
    (hc : pc.trained = false) (hr : pr.trained = false)
    (hv : pv.trained = false) :
    pc.predict ext x = 1/2 ∧ pv.predict ext x = 1/2 ∧
    pr.predict x specialty =
      (SPECIALTY_RISK_MAP.lookup specialty.toLower).getD (5/2) := by
  refine ⟨?_, ?_, ?_⟩
  · unfold ProbeC.predict
    rw [if_pos hc]
  · unfold ProbeV.predict
    rw [if_pos hv]
  · obtain ⟨model, tr⟩ := pr
    dsimp only at hr
    subst hr
    cases model <;>
      cases h : SPECIALTY_RISK_MAP.lookup specialty.toLower <;>
        simp [ProbeR.predict, h]

/-- Witness for C8 at concrete untrained probes. -/
theorem untrained_predict_fallbacks_witness :
    ProbeC.predict extProbe {} [1] = 1/2 :=
  (untrained_predict_fallbacks extProbe {} {} {} [1] "Cardiology"
    rfl rfl rfl).1

/-- C5: `QHIProbeSystem.train` on fewer than 10 samples raises the
configuration error naming the minimum (10) and the actual count, and
returns no trained state; on a well-formed list of exactly 10 samples
(both hallucination classes and both violation classes present, so every
fit succeeds) it returns metrics and a trained system. -/
theorem train_min_samples (ext : Externals) (sys : QHIProbeSystem)
    (samples : List ClinicalSample) :
    (samples.length < 10 →
      sys.train ext samples = Except.error (needSamplesMsg samples.length) ∧
      needSamplesMsg samples.length =
        "Need at least 10 samples, got " ++ toString samples.length) ∧
    (samples.length = 10 →
      2 ≤ (yHallucinatedOf samples).dedup.length →
      2 ≤ (yViolationOf samples).dedup.length →
      ∃ sys2 m, sys.train ext samples = Except.ok (sys2, m) ∧
        sys2.trained = true) := by
  constructor
  · intro h
    refine ⟨?_, rfl⟩
    unfold QHIProbeSystem.train
    rw [if_pos h]
  · intro hlen hc hv
    obtain ⟨pmc, hfc, htc⟩ := probeC_train_ok ext sys.probe_c
      (extractBatch ext samples) (yHallucinatedOf samples) hc
    obtain ⟨pmv, hfv⟩ := probeV_train_ok ext sys.probe_v
      (extractBatch ext samples) (yViolationOf samples) hv
    unfold QHIProbeSystem.train
    rw [if_neg (by omega)]
    dsimp only
    rw [hfc]
    dsimp only
    rw [hfv]
    exact ⟨_, _, rfl, rfl⟩

/-- Witness for C5: the failing call at the concrete empty list and the
successful call at the concrete well-formed ten-sample list. -/
theorem train_min_samples_witness :
    QHIProbeSystem.train extProbe {} [] =
      Except.error (needSamplesMsg (List.length ([] : List ClinicalSample))) ∧
    ∃ sys2 m, QHIProbeSystem.train extProbe {} trainSamples =
      Except.ok (sys2, m) ∧ sys2.trained = true :=
  ⟨((train_min_samples extProbe {} []).1 (by decide)).1,
   (train_min_samples extProbe {} trainSamples).2 (by decide) (by decide)
     (by decide)⟩

/-- C10: `benchmark` on an empty test list raises `ZeroDivisionError`
(the gate-distribution percentages divide by the number of gates) instead
of returning a metrics mapping; on any nonempty test list it returns a
metrics mapping (the degradation sentinels absorb every other failure). -/
theorem benchmark_empty_raises (ext : Externals) (sys : QHIProbeSystem)
    (tests : List ClinicalSample) (hne : tests ≠ []) :
    sys.benchmark ext [] =
      Except.error "ZeroDivisionError: division by zero" ∧
    ∃ m, sys.benchmark ext tests = Except.ok m := by
  constructor
  · rfl
  · unfold QHIProbeSystem.benchmark QHIProbeSystem.scoreBatch
    dsimp only
    have hlen :
        ¬((((tests.map (sys.score ext)).map (fun s => s.gate)).length : ℚ)
          = 0) := by
      intro h
      rw [List.length_map, List.length_map] at h
      have hn : tests.length = 0 := by exact_mod_cast h
      exact hne (List.length_eq_zero.mp hn)
    simp only [pyDiv, if_neg hlen]
    exact ⟨_, rfl⟩

/-- Witness for C10 at a concrete one-sample test list. -/
theorem benchmark_empty_raises_witness :
    ∃ m, QHIProbeSystem.benchmark extProbe {} [sampleA] = Except.ok m :=
  (benchmark_empty_raises extProbe {} [sampleA] (by simp)).2
